import Mathlib

/-! Verification of `tailwind.config.js`.

A shallow embedding of the single module of the repository,
`tailwind.config.js`, whose body is one assignment

    module.exports = {
      content: ['./src/**/*.{html,rs}', 'index.html'],
      theme: { extend: {} },
      plugins: [require('@tailwindcss/typography'), require('@tailwindcss/forms')],
    };

The object literal is evaluated property by property, top to bottom. The only
calls are the two `require` calls; `require` belongs to the host, so it is a
parameter of the embedding. It may read and change host state (the module
cache) and it may throw, so it is modelled as a state-passing function that
returns either an error or a value.
-/

namespace TailwindConfig

/-- JavaScript values that can occur in the exported object. `handle` carries a
value produced by the host (what `require` returns); objects keep their
properties in insertion order. -/
inductive JsValue (P : Type) where
  | str : String → JsValue P
  | arr : List (JsValue P) → JsValue P
  | obj : List (String × JsValue P) → JsValue P
  | handle : P → JsValue P

/-- The host's `require`: given a module name and the host state, it either
throws (`Except.error`) or returns the module's exports, and leaves a new host
state. -/
abbrev Loader (σ ε P : Type) : Type := String → σ → Except ε (JsValue P) × σ

/-- Property names of an object in insertion order (`Object.keys`); a value
that is not an object has none. -/
def JsValue.keys {P : Type} : JsValue P → List String
  | .obj kvs => kvs.map Prod.fst
  | _ => []

/-- Own-property lookup: the value stored under the key `k` in the object
itself, `none` when the object has no own property `k` (or the value is not an
object). Inherited properties are not modelled. -/
def JsValue.get? {P : Type} : JsValue P → String → Option (JsValue P)
  | .obj kvs, k => (kvs.find? (fun kv => kv.1 == k)).map Prod.snd
  | _, _ => none

/-- Elements of an array value; `none` when the value is not an array. -/
def JsValue.elems? {P : Type} : JsValue P → Option (List (JsValue P))
  | .arr xs => some xs
  | _ => none

/-- A string has a wildcard when it contains one of the glob metacharacters
`*`, `?` or `[`. -/
def hasWildcard (s : String) : Bool :=
  s.toList.any (fun c => c == '*' || c == '?' || c == '[')

/-- A value is a glob pattern when it is a string with a wildcard. -/
def JsValue.isGlob {P : Type} : JsValue P → Bool
  | .str s => hasWildcard s
  | _ => false

/-- Line 3: the array literal of the `content` property. -/
def content {P : Type} : JsValue P :=
  .arr [.str "./src/**/*.\x7bhtml,rs\x7d", .str "index.html"]

/-- Lines 5-7: the object literal of the `theme` property. -/
def theme {P : Type} : JsValue P :=
  .obj [("extend", .obj [])]

/-- Lines 8-11: the array literal of the `plugins` property. The two `require`
calls run left to right, the second in the host state the first one left; a
throw of either abandons the evaluation. -/
def plugins {σ ε P : Type} (require : Loader σ ε P) (s : σ) :
    Except ε (JsValue P) × σ :=
  match require "@tailwindcss/typography" s with
  | (.error e, s1) => (.error e, s1)
  | (.ok p1, s1) =>
    match require "@tailwindcss/forms" s1 with
    | (.error e, s2) => (.error e, s2)
    | (.ok p2, s2) => (.ok (.arr [p1, p2]), s2)

/-- Lines 2-12: evaluation of the module body. The value assigned to
`module.exports` is the object literal with the properties `content`, `theme`
and `plugins`, in this order; nothing is assigned when evaluating `plugins`
throws. -/
def moduleExports {σ ε P : Type} (require : Loader σ ε P) (s : σ) :
    Except ε (JsValue P) × σ :=
  match plugins require s with
  | (.error e, s1) => (.error e, s1)
  | (.ok ps, s1) => (.ok (.obj [("content", content), ("theme", theme), ("plugins", ps)]), s1)

/-! ## Concrete hosts used to evaluate the module -/

/-- A host in which every module resolves: the exports of a module are a handle
carrying its name, and the state counts the calls. -/
def countingRequire : Loader Nat String String :=
  fun name n => (.ok (.handle name), n + 1)

/-- A host in which only the forms plugin is installed. -/
def formsOnlyRequire : Loader Nat String String :=
  fun name n =>
    if name = "@tailwindcss/forms" then (.ok (.handle name), n + 1)
    else (.error ("Cannot find module " ++ name), n)

/-- A host in which only the typography plugin is installed. -/
def typographyOnlyRequire : Loader Nat String String :=
  fun name n =>
    if name = "@tailwindcss/typography" then (.ok (.handle name), n + 1)
    else (.error ("Cannot find module " ++ name), n)

/-- A host whose modules export a handle carrying the number of calls made
before: its result differs from one call to the next. -/
def freshRequire : Loader Nat String Nat :=
  fun _ n => (.ok (.handle n), n + 1)

/-- A stateless host in which every module resolves to a handle carrying the
name with a version tag. -/
def taggedRequire : Loader Unit String String :=
  fun name u => (.ok (.handle (name ++ "@0.5")), u)

/-! ## Shape of the module's result -/

/-- The object the module body builds from the values of the two `require`
calls. -/
def configOf {P : Type} (p1 p2 : JsValue P) : JsValue P :=
  .obj [("content", content), ("theme", theme), ("plugins", .arr [p1, p2])]

theorem moduleExports_of_ok {σ ε P : Type} (require : Loader σ ε P) (s s1 s2 : σ)
    (p1 p2 : JsValue P)
    (h1 : require "@tailwindcss/typography" s = (.ok p1, s1))
    (h2 : require "@tailwindcss/forms" s1 = (.ok p2, s2)) :
    moduleExports require s = (.ok (configOf p1 p2), s2) := by
  simp [moduleExports, plugins, h1, h2, configOf]

theorem moduleExports_of_error_first {σ ε P : Type} (require : Loader σ ε P) (s s1 : σ)
    (e : ε) (h1 : require "@tailwindcss/typography" s = (.error e, s1)) :
    moduleExports require s = (.error e, s1) := by
  simp [moduleExports, plugins, h1]

theorem moduleExports_of_error_second {σ ε P : Type} (require : Loader σ ε P)
    (s s1 s2 : σ) (p1 : JsValue P) (e : ε)
    (h1 : require "@tailwindcss/typography" s = (.ok p1, s1))
    (h2 : require "@tailwindcss/forms" s1 = (.error e, s2)) :
    moduleExports require s = (.error e, s2) := by
  simp [moduleExports, plugins, h1, h2]

/-- Every successful evaluation went through two successful `require` calls and
produced the object built from their values. -/
theorem moduleExports_ok_inv {σ ε P : Type} (require : Loader σ ε P) (s : σ)
    (cfg : JsValue P) (h : (moduleExports require s).1 = .ok cfg) :
    ∃ p1 p2, (require "@tailwindcss/typography" s).1 = .ok p1 ∧
      (require "@tailwindcss/forms" (require "@tailwindcss/typography" s).2).1 = .ok p2 ∧
      cfg = configOf p1 p2 := by
  rcases h1 : require "@tailwindcss/typography" s with ⟨r1, s1⟩
  cases r1 with
  | error e =>
    rw [moduleExports_of_error_first require s s1 e h1] at h
    cases h
  | ok p1 =>
    rcases h2 : require "@tailwindcss/forms" s1 with ⟨r2, s2⟩
    cases r2 with
    | error e =>
      rw [moduleExports_of_error_second require s s1 s2 p1 e h1 h2] at h
      cases h
    | ok p2 =>
      rw [moduleExports_of_ok require s s1 s2 p1 p2 h1 h2] at h
      refine ⟨p1, p2, rfl, ?_, ?_⟩
      · simp [h2]
      · simp only [Except.ok.injEq] at h
        exact h.symm

theorem configOf_keys {P : Type} (p1 p2 : JsValue P) :
    (configOf p1 p2).keys = ["content", "theme", "plugins"] := rfl

theorem configOf_get_content {P : Type} (p1 p2 : JsValue P) :
    (configOf p1 p2).get? "content" = some content := by
  simp [configOf, JsValue.get?]

theorem configOf_get_theme {P : Type} (p1 p2 : JsValue P) :
    (configOf p1 p2).get? "theme" = some theme := by
  simp [configOf, JsValue.get?]

theorem configOf_get_plugins {P : Type} (p1 p2 : JsValue P) :
    (configOf p1 p2).get? "plugins" = some (.arr [p1, p2]) := by
  simp [configOf, JsValue.get?]

theorem configOf_get_other {P : Type} (p1 p2 : JsValue P) (k : String)
    (hc : k ≠ "content") (ht : k ≠ "theme") (hp : k ≠ "plugins") :
    (configOf p1 p2).get? k = none := by
  have h1 : ("content" == k) = false := beq_eq_false_iff_ne.mpr (Ne.symm hc)
  have h2 : ("theme" == k) = false := beq_eq_false_iff_ne.mpr (Ne.symm ht)
  have h3 : ("plugins" == k) = false := beq_eq_false_iff_ne.mpr (Ne.symm hp)
  simp [configOf, JsValue.get?, List.find?, h1, h2, h3]

/-! ## The claims -/

/-- C1: when the loader resolves both plugin names, the module evaluates to a
configuration whose `plugins` property is an array of exactly two elements, the
loader's value for '@tailwindcss/typography' followed by its value for
'@tailwindcss/forms'. -/
theorem plugins_two_in_declared_order {σ ε P : Type} (require : Loader σ ε P)
    (s s1 s2 : σ) (p1 p2 : JsValue P)
    (h1 : require "@tailwindcss/typography" s = (.ok p1, s1))
    (h2 : require "@tailwindcss/forms" s1 = (.ok p2, s2)) :
    ∃ cfg, moduleExports require s = (.ok cfg, s2) ∧
      (cfg.get? "plugins").bind JsValue.elems? = some [p1, p2] := by
  refine ⟨configOf p1 p2, moduleExports_of_ok require s s1 s2 p1 p2 h1 h2, ?_⟩
  rw [configOf_get_plugins]
  rfl

theorem plugins_two_in_declared_order_witness :
    countingRequire "@tailwindcss/typography" 0
        = (.ok (.handle "@tailwindcss/typography"), 1) ∧
      countingRequire "@tailwindcss/forms" 1 = (.ok (.handle "@tailwindcss/forms"), 2) ∧
      ∃ cfg, moduleExports countingRequire 0 = (.ok cfg, 2) ∧
        (cfg.get? "plugins").bind JsValue.elems?
          = some [.handle "@tailwindcss/typography", .handle "@tailwindcss/forms"] :=
  ⟨rfl, rfl, plugins_two_in_declared_order countingRequire 0 1 2
    (.handle "@tailwindcss/typography") (.handle "@tailwindcss/forms") rfl rfl⟩

/-- C2: the `content` property of an exported configuration is a non-empty
array that contains a glob pattern, the string './src/**/*.{html,rs}' with its
wildcards, and contains the literal entry-file path 'index.html'. -/
theorem content_nonempty_glob_and_entry {σ ε P : Type} (require : Loader σ ε P)
    (s : σ) (cfg : JsValue P) (h : (moduleExports require s).1 = .ok cfg) :
    ∃ xs, (cfg.get? "content").bind JsValue.elems? = some xs ∧ xs ≠ [] ∧
      (∃ g ∈ xs, g = JsValue.str "./src/**/*.\x7bhtml,rs\x7d" ∧ g.isGlob = true) ∧
      JsValue.str "index.html" ∈ xs := by
  obtain ⟨p1, p2, -, -, rfl⟩ := moduleExports_ok_inv require s cfg h
  refine ⟨[.str "./src/**/*.\x7bhtml,rs\x7d", .str "index.html"], ?_, ?_, ?_, ?_⟩
  · rw [configOf_get_content]
    rfl
  · exact List.cons_ne_nil _ _
  · refine ⟨.str "./src/**/*.\x7bhtml,rs\x7d", List.mem_cons_self _ _, rfl, ?_⟩
    show hasWildcard "./src/**/*.\x7bhtml,rs\x7d" = true
    decide
  · exact List.mem_cons_of_mem _ (List.mem_cons_self _ _)

theorem content_nonempty_glob_and_entry_witness :
    (moduleExports taggedRequire ()).1
        = .ok (configOf (.handle "@tailwindcss/typography@0.5")
            (.handle "@tailwindcss/forms@0.5")) ∧
      ∃ xs, ((configOf (.handle "@tailwindcss/typography@0.5")
            (.handle "@tailwindcss/forms@0.5") : JsValue String).get? "content").bind
          JsValue.elems? = some xs ∧ xs ≠ [] ∧
        (∃ g ∈ xs, g = JsValue.str "./src/**/*.\x7bhtml,rs\x7d" ∧ g.isGlob = true) ∧
        JsValue.str "index.html" ∈ xs :=
  ⟨rfl, content_nonempty_glob_and_entry taggedRequire () _ rfl⟩

/-- C3: an exported configuration has a `theme` property; its only key is
`extend`, and `extend` is present and is the empty object. -/
theorem theme_only_empty_extend {σ ε P : Type} (require : Loader σ ε P)
    (s : σ) (cfg : JsValue P) (h : (moduleExports require s).1 = .ok cfg) :
    ∃ t, cfg.get? "theme" = some t ∧ t.keys = ["extend"] ∧
      ∃ e, t.get? "extend" = some e ∧ e = JsValue.obj [] ∧ e.keys = [] := by
  obtain ⟨p1, p2, -, -, rfl⟩ := moduleExports_ok_inv require s cfg h
  refine ⟨theme, configOf_get_theme p1 p2, rfl, JsValue.obj [], ?_, rfl, rfl⟩
  simp [theme, JsValue.get?]

theorem theme_only_empty_extend_witness :
    (moduleExports countingRequire 7).1
        = .ok (configOf (.handle "@tailwindcss/typography")
            (.handle "@tailwindcss/forms")) ∧
      ∃ t, (configOf (.handle "@tailwindcss/typography")
            (.handle "@tailwindcss/forms") : JsValue String).get? "theme" = some t ∧
        t.keys = ["extend"] ∧
        ∃ e, t.get? "extend" = some e ∧ e = JsValue.obj [] ∧ e.keys = [] :=
  ⟨rfl, theme_only_empty_extend countingRequire 7 _ rfl⟩

/-- C4: for a loader whose result depends on the module name only and not on
the host state, evaluating the module in any two host states, in particular a
second time in the state the first evaluation left, gives the same result, so
the two records agree on every field. -/
theorem reload_same_result {σ ε P : Type} (require : Loader σ ε P)
    (hdet : ∀ name s s', (require name s).1 = (require name s').1) (s s' : σ) :
    (moduleExports require s).1 = (moduleExports require s').1 ∧
      (moduleExports require s).1
        = (moduleExports require (moduleExports require s).2).1 := by
  have key : ∀ a b : σ, (moduleExports require a).1 = (moduleExports require b).1 := by
    intro a b
    have e1 := hdet "@tailwindcss/typography" a b
    rcases ha : require "@tailwindcss/typography" a with ⟨ra, a1⟩
    rcases hb : require "@tailwindcss/typography" b with ⟨rb, b1⟩
    rw [ha, hb] at e1
    simp only at e1
    subst e1
    cases ra with
    | error e =>
      rw [moduleExports_of_error_first require a a1 e ha,
        moduleExports_of_error_first require b b1 e hb]
    | ok p1 =>
      have e2 := hdet "@tailwindcss/forms" a1 b1
      rcases ha2 : require "@tailwindcss/forms" a1 with ⟨ra2, a2⟩
      rcases hb2 : require "@tailwindcss/forms" b1 with ⟨rb2, b2⟩
      rw [ha2, hb2] at e2
      simp only at e2
      subst e2
      cases ra2 with
      | error e =>
        rw [moduleExports_of_error_second require a a1 a2 p1 e ha ha2,
          moduleExports_of_error_second require b b1 b2 p1 e hb hb2]
      | ok p2 =>
        rw [moduleExports_of_ok require a a1 a2 p1 p2 ha ha2,
          moduleExports_of_ok require b b1 b2 p1 p2 hb hb2]
  exact ⟨key s s', key s _⟩

theorem reload_same_result_witness :
    (∀ name s s', (countingRequire name s).1 = (countingRequire name s').1) ∧
      (moduleExports countingRequire 0).1 = (moduleExports countingRequire 5).1 ∧
      (moduleExports countingRequire 0).1
        = (moduleExports countingRequire (moduleExports countingRequire 0).2).1 :=
  ⟨fun _ _ _ => rfl, reload_same_result countingRequire (fun _ _ _ => rfl) 0 5⟩

/-- C5, as amended: evaluating the module succeeds exactly when the loader
resolves '@tailwindcss/typography' and then '@tailwindcss/forms'; every error of
the evaluation is the error the loader raised for one of the two names, the
second being tried only after the first resolved. -/
theorem moduleExports_ok_iff_both_resolve {σ ε P : Type} (require : Loader σ ε P)
    (s : σ) :
    ((∃ cfg, (moduleExports require s).1 = .ok cfg) ↔
      ((∃ p1, (require "@tailwindcss/typography" s).1 = .ok p1) ∧
        ∃ p2, (require "@tailwindcss/forms"
          (require "@tailwindcss/typography" s).2).1 = .ok p2)) ∧
    (∀ e, (moduleExports require s).1 = .error e ↔
      ((require "@tailwindcss/typography" s).1 = .error e ∨
        ((∃ p1, (require "@tailwindcss/typography" s).1 = .ok p1) ∧
          (require "@tailwindcss/forms"
            (require "@tailwindcss/typography" s).2).1 = .error e))) := by
  rcases h1 : require "@tailwindcss/typography" s with ⟨r1, s1⟩
  cases r1 with
  | error e1 =>
    rw [moduleExports_of_error_first require s s1 e1 h1]
    simp
  | ok p1 =>
    rcases h2 : require "@tailwindcss/forms" s1 with ⟨r2, s2⟩
    cases r2 with
    | error e2 =>
      rw [moduleExports_of_error_second require s s1 s2 p1 e2 h1 h2]
      simp [h2]
    | ok p2 =>
      rw [moduleExports_of_ok require s s1 s2 p1 p2 h1 h2]
      simp [h2]

theorem moduleExports_ok_iff_both_resolve_witness :
    (¬ ∃ cfg, (moduleExports typographyOnlyRequire 0).1 = .ok cfg) ∧
      (moduleExports typographyOnlyRequire 0).1
        = .error "Cannot find module @tailwindcss/forms" := by
  refine ⟨fun h => ?_,
    ((moduleExports_ok_iff_both_resolve typographyOnlyRequire 0).2 _).mpr
      (Or.inr ⟨⟨_, rfl⟩, rfl⟩)⟩
  obtain ⟨-, p2, hp2⟩ := (moduleExports_ok_iff_both_resolve typographyOnlyRequire 0).1.mp h
  cases hp2

/-- C5, as stated, fails: with a loader that cannot resolve
'@tailwindcss/typography' the evaluation of the module throws the loader's
error and no configuration record is exported. -/
theorem construction_fails_when_plugin_unresolved :
    (formsOnlyRequire "@tailwindcss/typography" 0).1
        = .error "Cannot find module @tailwindcss/typography" ∧
      (moduleExports formsOnlyRequire 0).1
        = .error "Cannot find module @tailwindcss/typography" ∧
      ¬ ∃ cfg, (moduleExports formsOnlyRequire 0).1 = .ok cfg := by
  refine ⟨rfl, rfl, ?_⟩
  rintro ⟨cfg, h⟩
  cases h

/-- C6: an exported configuration is an object whose keys are exactly
`content`, `theme` and `plugins`: these three are present and reading any other
key gives `undefined`. -/
theorem config_has_exactly_three_fields {σ ε P : Type} (require : Loader σ ε P)
    (s : σ) (cfg : JsValue P) (h : (moduleExports require s).1 = .ok cfg) :
    (∃ kvs, cfg = JsValue.obj kvs) ∧
      cfg.keys = ["content", "theme", "plugins"] ∧
      ∀ k, (cfg.get? k).isSome = true ↔ (k = "content" ∨ k = "theme" ∨ k = "plugins") := by
  obtain ⟨p1, p2, -, -, rfl⟩ := moduleExports_ok_inv require s cfg h
  refine ⟨⟨_, rfl⟩, configOf_keys p1 p2, fun k => ?_⟩
  by_cases hc : k = "content"
  · subst hc
    simp [configOf_get_content]
  by_cases ht : k = "theme"
  · subst ht
    simp [configOf_get_theme]
  by_cases hp : k = "plugins"
  · subst hp
    simp [configOf_get_plugins]
  simp [configOf_get_other p1 p2 k hc ht hp, hc, ht, hp]

theorem config_has_exactly_three_fields_witness :
    (moduleExports freshRequire 3).1 = .ok (configOf (.handle 3) (.handle 4)) ∧
      (∃ kvs, (configOf (.handle 3) (.handle 4) : JsValue Nat) = JsValue.obj kvs) ∧
      (configOf (.handle 3) (.handle 4) : JsValue Nat).keys
        = ["content", "theme", "plugins"] ∧
      ∀ k, ((configOf (.handle 3) (.handle 4) : JsValue Nat).get? k).isSome = true ↔
        (k = "content" ∨ k = "theme" ∨ k = "plugins") :=
  ⟨rfl, config_has_exactly_three_fields freshRequire 3 _ rfl⟩

/-- C8: for any two loaders under which the module evaluates successfully, the
two configurations have the same keys, the same `content` and the same `theme`
(both present), and agree on every key other than `plugins`. -/
theorem content_and_theme_independent_of_loader {σ₁ σ₂ ε₁ ε₂ P : Type}
    (require₁ : Loader σ₁ ε₁ P) (require₂ : Loader σ₂ ε₂ P) (s₁ : σ₁) (s₂ : σ₂)
    (cfg₁ cfg₂ : JsValue P)
    (h₁ : (moduleExports require₁ s₁).1 = .ok cfg₁)
    (h₂ : (moduleExports require₂ s₂).1 = .ok cfg₂) :
    (∃ c, cfg₁.get? "content" = some c ∧ cfg₂.get? "content" = some c) ∧
      (∃ t, cfg₁.get? "theme" = some t ∧ cfg₂.get? "theme" = some t) ∧
      cfg₁.keys = cfg₂.keys ∧
      ∀ k, k ≠ "plugins" → cfg₁.get? k = cfg₂.get? k := by
  obtain ⟨p1, p2, -, -, rfl⟩ := moduleExports_ok_inv require₁ s₁ cfg₁ h₁
  obtain ⟨q1, q2, -, -, rfl⟩ := moduleExports_ok_inv require₂ s₂ cfg₂ h₂
  refine ⟨⟨content, configOf_get_content p1 p2, configOf_get_content q1 q2⟩,
    ⟨theme, configOf_get_theme p1 p2, configOf_get_theme q1 q2⟩, rfl, fun k hp => ?_⟩
  by_cases hc : k = "content"
  · subst hc
    rw [configOf_get_content, configOf_get_content]
  by_cases ht : k = "theme"
  · subst ht
    rw [configOf_get_theme, configOf_get_theme]
  rw [configOf_get_other p1 p2 k hc ht hp, configOf_get_other q1 q2 k hc ht hp]

theorem content_and_theme_independent_of_loader_witness :
    (moduleExports countingRequire 0).1
        = .ok (configOf (.handle "@tailwindcss/typography")
            (.handle "@tailwindcss/forms")) ∧
      (moduleExports taggedRequire ()).1
        = .ok (configOf (.handle "@tailwindcss/typography@0.5")
            (.handle "@tailwindcss/forms@0.5")) ∧
      (∃ c, (configOf (.handle "@tailwindcss/typography")
              (.handle "@tailwindcss/forms") : JsValue String).get? "content" = some c ∧
          (configOf (.handle "@tailwindcss/typography@0.5")
              (.handle "@tailwindcss/forms@0.5") : JsValue String).get? "content" = some c) ∧
      (∃ t, (configOf (.handle "@tailwindcss/typography")
              (.handle "@tailwindcss/forms") : JsValue String).get? "theme" = some t ∧
          (configOf (.handle "@tailwindcss/typography@0.5")
              (.handle "@tailwindcss/forms@0.5") : JsValue String).get? "theme" = some t) ∧
      (configOf (.handle "@tailwindcss/typography")
          (.handle "@tailwindcss/forms") : JsValue String).keys
        = (configOf (.handle "@tailwindcss/typography@0.5")
          (.handle "@tailwindcss/forms@0.5") : JsValue String).keys ∧
      ∀ k, k ≠ "plugins" →
        (configOf (.handle "@tailwindcss/typography")
            (.handle "@tailwindcss/forms") : JsValue String).get? k
          = (configOf (.handle "@tailwindcss/typography@0.5")
            (.handle "@tailwindcss/forms@0.5") : JsValue String).get? k :=
  ⟨rfl, rfl, content_and_theme_independent_of_loader countingRequire taggedRequire 0 ()
    _ _ rfl rfl⟩

/-! ## Companion facts -/

/-- The hypothesis of C4 is needed: under a loader whose result changes from
call to call, a second evaluation gives a different record. -/
theorem reload_differs_for_fresh_loader :
    (moduleExports freshRequire 0).1
      ≠ (moduleExports freshRequire (moduleExports freshRequire 0).2).1 := by
  intro h
  have h' : (Except.ok (configOf (.handle 0) (.handle 1)) : Except String (JsValue Nat))
      = .ok (configOf (.handle 2) (.handle 3)) := h
  simp [configOf] at h'

/-- The `plugins` property does depend on the loader. -/
theorem plugins_depend_on_loader :
    (configOf (.handle "@tailwindcss/typography")
        (.handle "@tailwindcss/forms") : JsValue String).get? "plugins"
      ≠ (configOf (.handle "@tailwindcss/typography@0.5")
        (.handle "@tailwindcss/forms@0.5") : JsValue String).get? "plugins" := by
  rw [configOf_get_plugins, configOf_get_plugins]
  intro h
  simp at h

/-- The `content` property of an exported configuration is the array of exactly
the two strings './src/**/*.{html,rs}' and 'index.html', in this order; the
first has wildcards, the second has none. Which files a pattern selects is
decided by the matcher of the tool that reads the configuration; the module
holds no matcher, so no selection relation is defined here. -/
theorem content_is_exactly_two_strings {σ ε P : Type} (require : Loader σ ε P)
    (s : σ) (cfg : JsValue P) (h : (moduleExports require s).1 = .ok cfg) :
    cfg.get? "content"
        = some (.arr [.str "./src/**/*.\x7bhtml,rs\x7d", .str "index.html"]) ∧
      hasWildcard "./src/**/*.\x7bhtml,rs\x7d" = true ∧
      hasWildcard "index.html" = false := by
  obtain ⟨p1, p2, -, -, rfl⟩ := moduleExports_ok_inv require s cfg h
  exact ⟨configOf_get_content p1 p2, by decide, by decide⟩

theorem content_is_exactly_two_strings_witness :
    (moduleExports taggedRequire ()).1
        = .ok (configOf (.handle "@tailwindcss/typography@0.5")
            (.handle "@tailwindcss/forms@0.5")) ∧
      (configOf (.handle "@tailwindcss/typography@0.5")
          (.handle "@tailwindcss/forms@0.5") : JsValue String).get? "content"
        = some (.arr [.str "./src/**/*.\x7bhtml,rs\x7d", .str "index.html"]) ∧
      hasWildcard "./src/**/*.\x7bhtml,rs\x7d" = true ∧
      hasWildcard "index.html" = false :=
  ⟨rfl, content_is_exactly_two_strings taggedRequire () _ rfl⟩

end TailwindConfig
